import Mathlib

/-!
Verification development for the `iced-modern-theme` repository
(`src/theme.rs`): a pure style resolver mapping a theme (light/dark flag
plus a palette), a widget variant and an interaction status to a style
record.

Embedding conventions:
* `f32` color channels and widths are embedded as exact rationals (`ℚ`);
  every constant appearing in the source (0.05, 0.1, 0.5, 0.7, ...) is an
  exact decimal, so the channel arithmetic of the source is reproduced
  exactly.
* The palette returned by `get_theme_colors` and the corner-radius
  constants live in the repository's `colors`/`styles` modules, which are
  not part of `src/theme.rs`; they are modelled parametrically (the
  palette is an arbitrary `ThemeColors` record carried inside `Theme`),
  so every theorem quantifies over all palettes.
* `iced::Background` has a gradient variant that `theme.rs` never
  constructs and never inspects (it only matches `Background::Color` and
  passes anything else through); the gradient payload is abstracted to a
  single rational.
-/

/-- RGBA color, mirroring `iced::Color`, channels as exact rationals. -/
structure Color where
  r : ℚ
  g : ℚ
  b : ℚ
  a : ℚ
deriving DecidableEq

/-- iced `Color::TRANSPARENT`. -/
def Color.TRANSPARENT : Color := ⟨0, 0, 0, 0⟩

/-- iced `Color::WHITE`. -/
def Color.WHITE : Color := ⟨1, 1, 1, 1⟩

/-- iced `Color::BLACK`. -/
def Color.BLACK : Color := ⟨0, 0, 0, 1⟩

/-- iced `Color::from_rgb(r, g, b)`: opaque color. -/
def Color.from_rgb (r g b : ℚ) : Color := ⟨r, g, b, 1⟩

/-- iced `Color::scale_alpha(self, factor)`: multiplies the alpha channel. -/
def Color.scale_alpha (c : Color) (factor : ℚ) : Color :=
  { c with a := c.a * factor }

/-- iced `Vector` (used here only for shadow offsets). -/
structure Vector2 where
  x : ℚ
  y : ℚ
deriving DecidableEq

/-- iced `Background`. `theme.rs` only ever constructs the `color` variant;
the gradient payload is abstracted since the source never inspects it. -/
inductive Background where
  | color (c : Color)
  | gradient (angle : ℚ)
deriving DecidableEq

/-- iced `Border`: the source only ever uses uniform corner radii, so the
radius is a single rational. -/
structure Border where
  color : Color
  width : ℚ
  radius : ℚ
deriving DecidableEq

/-- iced `Border::default()`: transparent, zero width, zero radius. -/
def Border.default : Border := { color := Color.TRANSPARENT, width := 0, radius := 0 }

/-- iced `Shadow`. -/
structure Shadow where
  color : Color
  offset : Vector2
  blur_radius : ℚ
deriving DecidableEq

/-- iced `Shadow::default()`: all-zero shadow (transparent color, zero
offset, zero blur). -/
def Shadow.default : Shadow := { color := ⟨0, 0, 0, 0⟩, offset := ⟨0, 0⟩, blur_radius := 0 }

/-- iced `button::Style`. -/
structure ButtonStyle where
  background : Option Background
  text_color : Color
  border : Border
  shadow : Shadow
  snap : Bool
deriving DecidableEq

/-- iced `text_input::Style`. Note: it has no shadow field. -/
structure TextInputStyle where
  background : Background
  border : Border
  icon : Color
  placeholder : Color
  value : Color
  selection : Color
deriving DecidableEq

/-- iced `pick_list::Style`. Note: it has no shadow field. -/
structure PickListStyle where
  text_color : Color
  placeholder_color : Color
  background : Background
  border : Border
  handle_color : Color
deriving DecidableEq

/-- iced `checkbox::Style`. Note: it has no shadow field. -/
structure CheckboxStyle where
  background : Background
  icon_color : Color
  border : Border
  text_color : Option Color
deriving DecidableEq

/-- iced `radio::Style`. -/
structure RadioStyle where
  background : Background
  dot_color : Color
  border_width : ℚ
  border_color : Color
  text_color : Option Color
deriving DecidableEq

/-- iced `container::Style`. -/
structure ContainerStyle where
  text_color : Option Color
  background : Option Background
  border : Border
  shadow : Shadow
  snap : Bool
deriving DecidableEq

/-- iced `button::Status`. -/
inductive ButtonStatus where
  | Active
  | Hovered
  | Pressed
  | Disabled
deriving DecidableEq

/-- iced `text_input::Status` (`Focused` carries `is_hovered`). -/
inductive TextInputStatus where
  | Active
  | Hovered
  | Focused (is_hovered : Bool)
  | Disabled
deriving DecidableEq

/-- iced `pick_list::Status` (`Opened` carries `is_hovered`). -/
inductive PickListStatus where
  | Active
  | Hovered
  | Opened (is_hovered : Bool)
deriving DecidableEq

/-- iced `checkbox::Status`. -/
inductive CheckboxStatus where
  | Active (is_checked : Bool)
  | Hovered (is_checked : Bool)
  | Disabled (is_checked : Bool)
deriving DecidableEq

/-- iced `radio::Status`. -/
inductive RadioStatus where
  | Active (is_selected : Bool)
  | Hovered (is_selected : Bool)
deriving DecidableEq

/-- Repository `style::Button`: the closed set of button variants. -/
inductive ButtonVariant where
  | Primary
  | Secondary
  | Success
  | Warning
  | Danger
  | Link
  | System
  | Plain
deriving DecidableEq

/-- Repository `style::Container`: the closed set of container variants. -/
inductive ContainerVariant where
  | Transparent
  | Card
  | Sheet
  | Group
  | Sidebar
deriving DecidableEq

/-- Modelled from the spec: the semantic palette produced by
`get_theme_colors` in the repository's `colors` module (not under `src/`).
The spec describes it only as "a fixed set of named colors ... derived once
per call from a light/dark boolean", giving no numeric values, so the
palette is kept as an arbitrary record and all theorems quantify over it.
Only the fields consumed by the functions in `theme.rs` that the claims
mention are included. -/
structure ThemeColors where
  background : Color
  text : Color
  placeholder : Color
  input_bg : Color
  input_border : Color
  inactive_border : Color
  card_bg : Color
  system_bg : Color
  blue : Color
  green : Color
  red : Color
  orange : Color
deriving DecidableEq

/-- A theme as seen by the style functions: the light/dark flag together
with the palette it determines. -/
structure Theme where
  dark : Bool
  colors : ThemeColors
deriving DecidableEq

/-- Modelled from the spec: `get_theme_colors(theme)` from the `colors`
module — returns the palette derived from the theme. -/
def get_theme_colors (theme : Theme) : ThemeColors := theme.colors

/-- Modelled from the spec: `is_dark_mode(theme)` from the `colors`
module — returns the theme's light/dark flag. -/
def is_dark_mode (theme : Theme) : Bool := theme.dark

/-- Modelled from the spec: `CORNER_RADIUS` from the `styles` module. The
spec gives no numeric value and no claim depends on it. -/
def CORNER_RADIUS : ℚ := 8

/-- Modelled from the spec: `SMALL_CORNER_RADIUS` from the `styles`
module. The spec gives no numeric value and no claim depends on it. -/
def SMALL_CORNER_RADIUS : ℚ := 6

/-- Modelled from the spec: `TINY_CORNER_RADIUS` from the `styles` module.
The spec gives no numeric value and no claim depends on it. -/
def TINY_CORNER_RADIUS : ℚ := 4

/-- Source `theme.rs`, `text_input_style`. -/
def text_input_style (theme : Theme) (status : TextInputStatus) : TextInputStyle :=
  let colors := get_theme_colors theme
  let base_style : TextInputStyle :=
    { background := Background.color colors.input_bg
      border := { radius := SMALL_CORNER_RADIUS, width := 1, color := colors.input_border }
      icon := colors.text
      placeholder := colors.placeholder
      value := colors.text
      selection := colors.blue.scale_alpha (3/10) }
  match status with
  | .Active => base_style
  | .Hovered =>
      { base_style with border := { base_style.border with color := colors.placeholder } }
  | .Focused _ =>
      { base_style with border := { base_style.border with color := colors.blue, width := 2 } }
  | .Disabled =>
      { base_style with
        background := Background.color (colors.input_bg.scale_alpha (7/10))
        border := { base_style.border with color := colors.input_border.scale_alpha (1/2) }
        value := colors.text.scale_alpha (1/2) }

/-- Source `theme.rs`, `pick_list_style`. -/
def pick_list_style (theme : Theme) (status : PickListStatus) : PickListStyle :=
  let colors := get_theme_colors theme
  let base_style : PickListStyle :=
    { text_color := colors.text
      placeholder_color := colors.placeholder
      background := Background.color colors.input_bg
      border := { radius := SMALL_CORNER_RADIUS, width := 1, color := colors.input_border }
      handle_color := colors.placeholder }
  match status with
  | .Active => base_style
  | .Hovered =>
      { base_style with border := { base_style.border with color := colors.placeholder } }
  | .Opened _ =>
      { base_style with
        border := { base_style.border with color := colors.blue, width := 3/2 }
        handle_color := colors.blue }

/-- Source `theme.rs`, `combo_box_style`: reuses `text_input_style`. -/
def combo_box_style (theme : Theme) (status : TextInputStatus) : TextInputStyle :=
  text_input_style theme status

/-- Source `theme.rs`, `radio_style`. -/
def radio_style (theme : Theme) (status : RadioStatus) : RadioStyle :=
  let colors := get_theme_colors theme
  let style : RadioStyle :=
    { background := Background.color Color.TRANSPARENT
      dot_color := colors.blue
      border_width := 2
      border_color :=
        match status with
        | .Active true => colors.blue
        | .Hovered true => colors.blue
        | _ => colors.inactive_border
      text_color := some colors.text }
  match status with
  | .Hovered true => style
  | .Hovered false => { style with border_color := colors.blue.scale_alpha (1/2) }
  | _ => style

/-- Source `theme.rs`, `checkbox_style`. -/
def checkbox_style (theme : Theme) (status : CheckboxStatus) : CheckboxStyle :=
  let colors := get_theme_colors theme
  match status with
  | .Active is_checked =>
      if is_checked then
        { background := Background.color colors.blue
          icon_color := Color.WHITE
          border := { radius := TINY_CORNER_RADIUS, width := 0, color := Color.TRANSPARENT }
          text_color := some colors.text }
      else
        { background := Background.color Color.TRANSPARENT
          icon_color := Color.TRANSPARENT
          border := { radius := TINY_CORNER_RADIUS, width := 2, color := colors.inactive_border }
          text_color := some colors.text }
  | .Hovered is_checked =>
      if is_checked then
        { background := Background.color (colors.blue.scale_alpha (9/10))
          icon_color := Color.WHITE
          border := { radius := TINY_CORNER_RADIUS, width := 0, color := Color.TRANSPARENT }
          text_color := some colors.text }
      else
        { background := Background.color Color.TRANSPARENT
          icon_color := Color.TRANSPARENT
          border := { radius := TINY_CORNER_RADIUS, width := 2, color := colors.blue.scale_alpha (1/2) }
          text_color := some colors.text }
  | .Disabled is_checked =>
      if is_checked then
        { background := Background.color (colors.blue.scale_alpha (1/2))
          icon_color := Color.WHITE.scale_alpha (1/2)
          border := { radius := TINY_CORNER_RADIUS, width := 0, color := Color.TRANSPARENT }
          text_color := some (colors.text.scale_alpha (1/2)) }
      else
        { background := Background.color Color.TRANSPARENT
          icon_color := Color.TRANSPARENT
          border := { radius := TINY_CORNER_RADIUS, width := 2, color := colors.inactive_border.scale_alpha (1/2) }
          text_color := some (colors.text.scale_alpha (1/2)) }

/-- Source `theme.rs`, `container_style`. -/
def container_style (theme : Theme) (variant : ContainerVariant) : ContainerStyle :=
  let colors := get_theme_colors theme
  match variant with
  | .Transparent =>
      { text_color := some colors.text
        background := none
        border := Border.default
        shadow := Shadow.default
        snap := true }
  | .Card =>
      { text_color := some colors.text
        background := some (Background.color colors.card_bg)
        border := { radius := 10, width := 0, color := Color.TRANSPARENT }
        shadow := { color := { Color.BLACK with a := 1/10 }, offset := ⟨0, 2⟩, blur_radius := 8 }
        snap := true }
  | .Sheet =>
      let sheet_bg :=
        if is_dark_mode theme then Color.from_rgb (22/100) (22/100) (23/100)
        else Color.from_rgb (95/100) (95/100) (97/100)
      { text_color := some colors.text
        background := some (Background.color sheet_bg)
        border := { radius := 12, width := 0, color := Color.TRANSPARENT }
        shadow := { color := { Color.BLACK with a := 2/10 }, offset := ⟨0, 4⟩, blur_radius := 16 }
        snap := true }
  | .Group =>
      let group_bg :=
        if is_dark_mode theme then Color.from_rgb (17/100) (17/100) (18/100)
        else Color.from_rgb (95/100) (95/100) (97/100)
      { text_color := some colors.text
        background := some (Background.color group_bg)
        border := { radius := 10, width := 0, color := Color.TRANSPARENT }
        shadow := Shadow.default
        snap := true }
  | .Sidebar =>
      let sidebar_bg :=
        if is_dark_mode theme then Color.from_rgb (15/100) (15/100) (16/100)
        else Color.from_rgb (92/100) (92/100) (93/100)
      { text_color := some colors.text
        background := some (Background.color sidebar_bg)
        border := Border.default
        shadow := { color := { Color.BLACK with a := 5/100 }, offset := ⟨1, 0⟩, blur_radius := 3 }
        snap := true }

/-- Source `theme.rs`: the `adjust_color` closure of the Hovered branches
(duplicated verbatim in `button_style` and `button_hover_style`):
lighten every channel by 0.05 in dark mode, darken by 0.05 in light mode,
alpha unchanged. -/
def adjust_color_hover (is_dark : Bool) (color : Color) : Color :=
  if is_dark then
    { r := min (color.r + 5/100) 1
      g := min (color.g + 5/100) 1
      b := min (color.b + 5/100) 1
      a := color.a }
  else
    { r := max (color.r - 5/100) 0
      g := max (color.g - 5/100) 0
      b := max (color.b - 5/100) 0
      a := color.a }

/-- Source `theme.rs`: the `adjust_color` closure of the Pressed branches
(duplicated verbatim in `button_style` and `button_pressed_style`):
lighten every channel by 0.1 in dark mode, darken by 0.1 in light mode,
alpha unchanged. -/
def adjust_color_pressed (is_dark : Bool) (color : Color) : Color :=
  if is_dark then
    { r := min (color.r + 1/10) 1
      g := min (color.g + 1/10) 1
      b := min (color.b + 1/10) 1
      a := color.a }
  else
    { r := max (color.r - 1/10) 0
      g := max (color.g - 1/10) 0
      b := max (color.b - 1/10) 0
      a := color.a }

/-- Source `theme.rs`, `button_hover_style`. -/
def button_hover_style (base_style : ButtonStyle) (is_dark : Bool) : ButtonStyle :=
  match base_style.background with
  | some (Background.color color) =>
      { base_style with background := some (Background.color (adjust_color_hover is_dark color)) }
  | _ => base_style

/-- Source `theme.rs`, `button_pressed_style`: removes the shadow and
shifts a color background. -/
def button_pressed_style (base_style : ButtonStyle) (is_dark : Bool) : ButtonStyle :=
  let pressed_style := { base_style with shadow := Shadow.default }
  match base_style.background with
  | some (Background.color color) =>
      { pressed_style with background := some (Background.color (adjust_color_pressed is_dark color)) }
  | _ => pressed_style

/-- Source `theme.rs`, `button_disabled_style`. -/
def button_disabled_style (base_style : ButtonStyle) : ButtonStyle :=
  { background := base_style.background.map (fun bg =>
      match bg with
      | Background.color color => Background.color (color.scale_alpha (1/2))
      | _ => bg)
    text_color := base_style.text_color.scale_alpha (1/2)
    border := { base_style.border with color := base_style.border.color.scale_alpha (1/2) }
    shadow := Shadow.default
    snap := true }

/-- Source `theme.rs`, `button_style`: base style per variant, then the
status transform (with the Link/Plain text-only special cases). -/
def button_style (theme : Theme) (variant : ButtonVariant) (status : ButtonStatus) : ButtonStyle :=
  let colors := get_theme_colors theme
  let is_dark := is_dark_mode theme
  let modern_base : Color → Color → ButtonStyle := fun color text_color =>
    { background := some (Background.color color)
      text_color := text_color
      border := { radius := CORNER_RADIUS, width := 0, color := Color.TRANSPARENT }
      shadow := { color := { Color.BLACK with a := 1/10 }, offset := ⟨0, 1⟩, blur_radius := 2 }
      snap := true }
  let outlined : Color → Color → ButtonStyle := fun color text_color =>
    { background := some (Background.color Color.TRANSPARENT)
      text_color := text_color
      border := { radius := CORNER_RADIUS, width := 1, color := color }
      shadow := Shadow.default
      snap := true }
  let transparent : Color → ButtonStyle := fun text_color =>
    { background := some (Background.color Color.TRANSPARENT)
      text_color := text_color
      border := Border.default
      shadow := Shadow.default
      snap := true }
  let base_style :=
    match variant with
    | .Primary => modern_base colors.blue Color.WHITE
    | .Secondary => outlined colors.blue colors.blue
    | .Success => modern_base colors.green Color.WHITE
    | .Warning => modern_base colors.orange (if is_dark then Color.BLACK else Color.WHITE)
    | .Danger => modern_base colors.red Color.WHITE
    | .Link => transparent colors.blue
    | .System => modern_base colors.system_bg colors.text
    | .Plain => transparent colors.text
  match status with
  | .Active => base_style
  | .Hovered =>
      match variant with
      | .Link => { base_style with text_color := base_style.text_color.scale_alpha (8/10) }
      | .Plain => { base_style with text_color := base_style.text_color.scale_alpha (8/10) }
      | _ =>
          match base_style.background with
          | some (Background.color color) =>
              { base_style with
                background := some (Background.color (adjust_color_hover is_dark color)) }
          | _ => base_style
  | .Pressed =>
      let pressed_style := { base_style with shadow := Shadow.default }
      match variant with
      | .Link => { pressed_style with text_color := base_style.text_color.scale_alpha (6/10) }
      | .Plain => { pressed_style with text_color := base_style.text_color.scale_alpha (6/10) }
      | _ =>
          match base_style.background with
          | some (Background.color color) =>
              { pressed_style with
                background := some (Background.color (adjust_color_pressed is_dark color)) }
          | _ => pressed_style
  | .Disabled =>
      { background := base_style.background.map (fun bg =>
          match bg with
          | Background.color color => Background.color (color.scale_alpha (1/2))
          | _ => bg)
        text_color := base_style.text_color.scale_alpha (1/2)
        border := { base_style.border with color := base_style.border.color.scale_alpha (1/2) }
        shadow := Shadow.default
        snap := true }

/-- Source `theme.rs`, `Modern::combo_box` (lines 1441-1445): returns
`text_input_style` itself. -/
def Modern.combo_box : Theme → TextInputStatus → TextInputStyle :=
  text_input_style

/-- Source `theme.rs`, `Modern::selected_button_style`: for `Active`,
apply `button_pressed_style` to the base function's `Active` style; for
every other status, defer to the base function. -/
def Modern.selected_button_style (base_style_fn : Theme → ButtonStatus → ButtonStyle)
    (theme : Theme) (status : ButtonStatus) : ButtonStyle :=
  let is_dark := is_dark_mode theme
  match status with
  | .Active => button_pressed_style (base_style_fn theme ButtonStatus.Active) is_dark
  | _ => base_style_fn theme status

/-- A concrete light-mode palette used to instantiate witnesses and
counterexamples; all channels lie in the unit interval (integral values
are chosen so that proofs about the palette need no rational
normalization). -/
def sampleLightColors : ThemeColors :=
  { background := Color.WHITE
    text := Color.BLACK
    placeholder := Color.BLACK
    input_bg := Color.WHITE
    input_border := Color.BLACK
    inactive_border := Color.BLACK
    card_bg := Color.WHITE
    system_bg := Color.WHITE
    blue := Color.from_rgb 0 0 1
    green := Color.from_rgb 0 1 0
    red := Color.from_rgb 1 0 0
    orange := Color.from_rgb 1 1 0 }

/-- A concrete dark-mode palette used to instantiate witnesses and
counterexamples; it differs from the light palette on the mode-dependent
fields. -/
def sampleDarkColors : ThemeColors :=
  { sampleLightColors with
    background := Color.BLACK
    text := Color.WHITE
    card_bg := Color.BLACK
    input_bg := Color.BLACK }

/-- A concrete light theme for witnesses. -/
def sampleLightTheme : Theme := ⟨false, sampleLightColors⟩

/-- A concrete dark theme for witnesses. -/
def sampleDarkTheme : Theme := ⟨true, sampleDarkColors⟩

/-- Clamp a rational to the unit interval. -/
def clamp01 (q : ℚ) : ℚ := max 0 (min q 1)

theorem min_one_eq_clamp01 (x δ : ℚ) (h0 : 0 ≤ x) (hδ : 0 ≤ δ) :
    min (x + δ) 1 = clamp01 (x + δ) := by
  unfold clamp01
  rw [max_eq_right]
  exact le_min (by linarith) (by norm_num)

theorem max_zero_eq_clamp01 (x δ : ℚ) (h1 : x ≤ 1) (hδ : 0 ≤ δ) :
    max (x - δ) 0 = clamp01 (x - δ) := by
  unfold clamp01
  rw [min_eq_left (by linarith), max_comm]

theorem transparent_scale_alpha (q : ℚ) :
    Color.TRANSPARENT.scale_alpha q = Color.TRANSPARENT := by
  simp [Color.scale_alpha, Color.TRANSPARENT]

/-- C5: every style-resolution entry point is total: for every theme
(any palette, either mode) and every value of the closed variant and
status enumerations, the function returns a style record; there is no
error, panic or missing-case branch. -/
theorem C5_total_style_resolution (t : Theme) :
    (∀ v s, ∃ r : ButtonStyle, button_style t v s = r) ∧
    (∀ s, ∃ r : TextInputStyle, text_input_style t s = r) ∧
    (∀ s, ∃ r : PickListStyle, pick_list_style t s = r) ∧
    (∀ s, ∃ r : CheckboxStyle, checkbox_style t s = r) ∧
    (∀ s, ∃ r : RadioStyle, radio_style t s = r) ∧
    (∀ v, ∃ r : ContainerStyle, container_style t v = r) :=
  ⟨fun _ _ => ⟨_, rfl⟩, fun _ => ⟨_, rfl⟩, fun _ => ⟨_, rfl⟩,
   fun _ => ⟨_, rfl⟩, fun _ => ⟨_, rfl⟩, fun _ => ⟨_, rfl⟩⟩

/-- C3: style resolution is deterministic and pure: two invocations of any
resolver with identical inputs yield identical style records (the
embedding of the source is a function of the theme, variant and status
alone, so no hidden state can influence the result). -/
theorem C3_style_resolution_deterministic (t t' : Theme) (ht : t = t') :
    (∀ v s, button_style t v s = button_style t' v s) ∧
    (∀ s, text_input_style t s = text_input_style t' s) ∧
    (∀ s, pick_list_style t s = pick_list_style t' s) ∧
    (∀ s, checkbox_style t s = checkbox_style t' s) ∧
    (∀ s, radio_style t s = radio_style t' s) ∧
    (∀ v, container_style t v = container_style t' v) := by
  subst ht
  exact ⟨fun _ _ => rfl, fun _ => rfl, fun _ => rfl, fun _ => rfl, fun _ => rfl, fun _ => rfl⟩

/-- Witness for C3 at a concrete theme, variant and status. -/
theorem C3_style_resolution_deterministic_witness :
    button_style sampleLightTheme ButtonVariant.Primary ButtonStatus.Hovered =
      button_style sampleLightTheme ButtonVariant.Primary ButtonStatus.Hovered :=
  (C3_style_resolution_deterministic sampleLightTheme sampleLightTheme rfl).1
    ButtonVariant.Primary ButtonStatus.Hovered

/-- C6: for every palette, theme mode and button variant, the Pressed
style produced by `button_style` has the all-zero default shadow
(transparent color, zero offset, zero blur), regardless of the shadow of
the Active style. -/
theorem C6_pressed_removes_shadow (t : Theme) (v : ButtonVariant) :
    (button_style t v ButtonStatus.Pressed).shadow = Shadow.default ∧
    Shadow.default = { color := Color.TRANSPARENT, offset := ⟨0, 0⟩, blur_radius := 0 } := by
  obtain ⟨dark, colors⟩ := t
  cases v <;> exact ⟨rfl, rfl⟩

/-- C7: for every palette and both modes, Focused text inputs and Opened
pick lists switch the border color to the palette's accent blue and
strictly increase the border width relative to Active (1.0 to 2.0 for
text inputs, 1.0 to 1.5 for pick lists) while leaving the border radius
unchanged. -/
theorem C7_focused_opened_accent_border (t : Theme) (hov : Bool) :
    (text_input_style t (TextInputStatus.Focused hov)).border.color = (get_theme_colors t).blue ∧
    (text_input_style t TextInputStatus.Active).border.width = 1 ∧
    (text_input_style t (TextInputStatus.Focused hov)).border.width = 2 ∧
    (text_input_style t TextInputStatus.Active).border.width <
      (text_input_style t (TextInputStatus.Focused hov)).border.width ∧
    (text_input_style t (TextInputStatus.Focused hov)).border.radius =
      (text_input_style t TextInputStatus.Active).border.radius ∧
    (pick_list_style t (PickListStatus.Opened hov)).border.color = (get_theme_colors t).blue ∧
    (pick_list_style t PickListStatus.Active).border.width = 1 ∧
    (pick_list_style t (PickListStatus.Opened hov)).border.width = 3/2 ∧
    (pick_list_style t PickListStatus.Active).border.width <
      (pick_list_style t (PickListStatus.Opened hov)).border.width ∧
    (pick_list_style t (PickListStatus.Opened hov)).border.radius =
      (pick_list_style t PickListStatus.Active).border.radius := by
  refine ⟨rfl, rfl, rfl, ?_, rfl, rfl, rfl, rfl, ?_, rfl⟩
  · show (1 : ℚ) < 2
    norm_num
  · show (1 : ℚ) < 3/2
    norm_num

/-- C8: for the text-only Link and Plain button variants, in both modes
and for every palette, the Hovered style equals the Active style except
that the text color's alpha is scaled by 0.8; background, border and
shadow are unchanged. -/
theorem C8_link_plain_hover_text_only (t : Theme) :
    (button_style t ButtonVariant.Link ButtonStatus.Hovered =
      { button_style t ButtonVariant.Link ButtonStatus.Active with
        text_color :=
          (button_style t ButtonVariant.Link ButtonStatus.Active).text_color.scale_alpha (8/10) }) ∧
    (button_style t ButtonVariant.Plain ButtonStatus.Hovered =
      { button_style t ButtonVariant.Plain ButtonStatus.Active with
        text_color :=
          (button_style t ButtonVariant.Plain ButtonStatus.Active).text_color.scale_alpha (8/10) }) :=
  ⟨rfl, rfl⟩

/-- C9: the resolver returned by `Modern::combo_box` agrees with
`text_input_style` on every theme and every text-input status (and so
does the free function `combo_box_style`). -/
theorem C9_combo_box_matches_text_input (t : Theme) (s : TextInputStatus) :
    Modern.combo_box t s = text_input_style t s ∧ combo_box_style t s = text_input_style t s :=
  ⟨rfl, rfl⟩

/-- Alpha-scale the color of a background, leaving any non-color
background unchanged — the shape of the Disabled transform in the source
(`match bg { Background::Color(c) => ..., _ => bg }`). -/
def Background.scaleAlphaColor (bg : Background) (factor : ℚ) : Background :=
  match bg with
  | Background.color c => Background.color (c.scale_alpha factor)
  | _ => bg

/-- C1 (amended): for every palette and both modes, Disabled is an
alpha-scaling of Active — for buttons, background, text and border-color
alphas are scaled by exactly 0.5 and the shadow is zeroed; for
checkboxes, background, icon, border-color and text alphas are scaled by
0.5 (checkbox styles have no shadow field); for text inputs, the
background alpha is scaled by 0.7 — not 0.5 — while border-color and
value alphas are scaled by 0.5 and icon, placeholder and selection are
unchanged (text-input styles have no shadow field). -/
theorem C1_disabled_alpha_scaling (t : Theme) :
    (∀ v : ButtonVariant,
      button_style t v ButtonStatus.Disabled =
        { background := (button_style t v ButtonStatus.Active).background.map
            (fun bg => bg.scaleAlphaColor (1/2))
          text_color := (button_style t v ButtonStatus.Active).text_color.scale_alpha (1/2)
          border := { (button_style t v ButtonStatus.Active).border with
                      color := (button_style t v ButtonStatus.Active).border.color.scale_alpha (1/2) }
          shadow := Shadow.default
          snap := true }) ∧
    (∀ ic : Bool,
      checkbox_style t (CheckboxStatus.Disabled ic) =
        { background := (checkbox_style t (CheckboxStatus.Active ic)).background.scaleAlphaColor (1/2)
          icon_color := (checkbox_style t (CheckboxStatus.Active ic)).icon_color.scale_alpha (1/2)
          border := { (checkbox_style t (CheckboxStatus.Active ic)).border with
                      color := (checkbox_style t (CheckboxStatus.Active ic)).border.color.scale_alpha (1/2) }
          text_color := (checkbox_style t (CheckboxStatus.Active ic)).text_color.map
            (fun c => c.scale_alpha (1/2)) }) ∧
    (text_input_style t TextInputStatus.Disabled =
      { text_input_style t TextInputStatus.Active with
        background := (text_input_style t TextInputStatus.Active).background.scaleAlphaColor (7/10)
        border := { (text_input_style t TextInputStatus.Active).border with
                    color := (text_input_style t TextInputStatus.Active).border.color.scale_alpha (1/2) }
        value := (text_input_style t TextInputStatus.Active).value.scale_alpha (1/2) }) := by
  obtain ⟨dark, colors⟩ := t
  refine ⟨fun v => ?_, fun ic => ?_, rfl⟩
  · cases v <;> cases dark <;> rfl
  · cases ic <;>
      simp [checkbox_style, get_theme_colors, Background.scaleAlphaColor,
        Color.TRANSPARENT, Color.scale_alpha]

/-- C1 counterexample: at a concrete light theme, the Disabled text-input
background is not the Active background with alpha scaled by 0.5 (the
source scales it by 0.7). -/
theorem C1_counterexample :
    (text_input_style sampleLightTheme TextInputStatus.Disabled).background ≠
      (text_input_style sampleLightTheme TextInputStatus.Active).background.scaleAlphaColor (1/2) := by
  norm_num [text_input_style, get_theme_colors, sampleLightTheme, sampleLightColors,
    Background.scaleAlphaColor, Color.scale_alpha, Color.WHITE]

/-- The hover shift of the claim: +0.05 in dark mode, -0.05 in light mode. -/
def hoverShift (dark : Bool) : ℚ := if dark then 5/100 else -(5/100)

/-- The pressed shift of the claim: +0.1 in dark mode, -0.1 in light mode. -/
def pressedShift (dark : Bool) : ℚ := if dark then 1/10 else -(1/10)

theorem max_zero_eq_clamp01_neg (x δ : ℚ) (h1 : x ≤ 1) (hδ : 0 ≤ δ) :
    max (x - δ) 0 = clamp01 (x + -δ) := by
  rw [← sub_eq_add_neg]
  exact max_zero_eq_clamp01 x δ h1 hδ

theorem adjust_color_hover_clamp (dark : Bool) (c : Color)
    (hr0 : 0 ≤ c.r) (hr1 : c.r ≤ 1) (hg0 : 0 ≤ c.g) (hg1 : c.g ≤ 1)
    (hb0 : 0 ≤ c.b) (hb1 : c.b ≤ 1) :
    adjust_color_hover dark c =
      { r := clamp01 (c.r + hoverShift dark), g := clamp01 (c.g + hoverShift dark),
        b := clamp01 (c.b + hoverShift dark), a := c.a } := by
  cases dark
  · show ({ r := max (c.r - 5/100) 0, g := max (c.g - 5/100) 0,
            b := max (c.b - 5/100) 0, a := c.a } : Color) = _
    rw [max_zero_eq_clamp01_neg c.r (5/100) hr1 (by norm_num),
      max_zero_eq_clamp01_neg c.g (5/100) hg1 (by norm_num),
      max_zero_eq_clamp01_neg c.b (5/100) hb1 (by norm_num)]
    rfl
  · show ({ r := min (c.r + 5/100) 1, g := min (c.g + 5/100) 1,
            b := min (c.b + 5/100) 1, a := c.a } : Color) = _
    rw [min_one_eq_clamp01 c.r (5/100) hr0 (by norm_num),
      min_one_eq_clamp01 c.g (5/100) hg0 (by norm_num),
      min_one_eq_clamp01 c.b (5/100) hb0 (by norm_num)]
    rfl

theorem adjust_color_pressed_clamp (dark : Bool) (c : Color)
    (hr0 : 0 ≤ c.r) (hr1 : c.r ≤ 1) (hg0 : 0 ≤ c.g) (hg1 : c.g ≤ 1)
    (hb0 : 0 ≤ c.b) (hb1 : c.b ≤ 1) :
    adjust_color_pressed dark c =
      { r := clamp01 (c.r + pressedShift dark), g := clamp01 (c.g + pressedShift dark),
        b := clamp01 (c.b + pressedShift dark), a := c.a } := by
  cases dark
  · show ({ r := max (c.r - 1/10) 0, g := max (c.g - 1/10) 0,
            b := max (c.b - 1/10) 0, a := c.a } : Color) = _
    rw [max_zero_eq_clamp01_neg c.r (1/10) hr1 (by norm_num),
      max_zero_eq_clamp01_neg c.g (1/10) hg1 (by norm_num),
      max_zero_eq_clamp01_neg c.b (1/10) hb1 (by norm_num)]
    rfl
  · show ({ r := min (c.r + 1/10) 1, g := min (c.g + 1/10) 1,
            b := min (c.b + 1/10) 1, a := c.a } : Color) = _
    rw [min_one_eq_clamp01 c.r (1/10) hr0 (by norm_num),
      min_one_eq_clamp01 c.g (1/10) hg0 (by norm_num),
      min_one_eq_clamp01 c.b (1/10) hb0 (by norm_num)]
    rfl

/-- C2: for every palette, both modes, and every button variant other
than Link and Plain: when the Active background is a color whose r, g, b
channels lie in [0,1], the Hovered background shifts each channel by
+0.05 (dark mode) or -0.05 (light mode) and the Pressed background by
+0.1 (dark mode) or -0.1 (light mode), each channel clamped to [0,1],
with the alpha channel unchanged. -/
theorem C2_hover_pressed_shift (t : Theme) (v : ButtonVariant) (c0 : Color)
    (hL : v ≠ ButtonVariant.Link) (hP : v ≠ ButtonVariant.Plain)
    (hbg : (button_style t v ButtonStatus.Active).background = some (Background.color c0))
    (hr0 : 0 ≤ c0.r) (hr1 : c0.r ≤ 1) (hg0 : 0 ≤ c0.g) (hg1 : c0.g ≤ 1)
    (hb0 : 0 ≤ c0.b) (hb1 : c0.b ≤ 1) :
    (button_style t v ButtonStatus.Hovered).background =
      some (Background.color
        { r := clamp01 (c0.r + hoverShift (is_dark_mode t))
          g := clamp01 (c0.g + hoverShift (is_dark_mode t))
          b := clamp01 (c0.b + hoverShift (is_dark_mode t))
          a := c0.a }) ∧
    (button_style t v ButtonStatus.Pressed).background =
      some (Background.color
        { r := clamp01 (c0.r + pressedShift (is_dark_mode t))
          g := clamp01 (c0.g + pressedShift (is_dark_mode t))
          b := clamp01 (c0.b + pressedShift (is_dark_mode t))
          a := c0.a }) := by
  obtain ⟨dark, colors⟩ := t
  cases v <;>
    first
      | exact absurd rfl hL
      | exact absurd rfl hP
      | (have h2 := Option.some.inj hbg
         injection h2 with h3
         subst h3
         exact ⟨congrArg (fun c => some (Background.color c))
             (adjust_color_hover_clamp dark _ hr0 hr1 hg0 hg1 hb0 hb1),
           congrArg (fun c => some (Background.color c))
             (adjust_color_pressed_clamp dark _ hr0 hr1 hg0 hg1 hb0 hb1)⟩)

/-- Witness for C2 at the concrete light theme and the Primary variant. -/
theorem C2_hover_pressed_shift_witness :
    (button_style sampleLightTheme ButtonVariant.Primary ButtonStatus.Hovered).background =
      some (Background.color
        { r := clamp01 (sampleLightColors.blue.r + hoverShift (is_dark_mode sampleLightTheme))
          g := clamp01 (sampleLightColors.blue.g + hoverShift (is_dark_mode sampleLightTheme))
          b := clamp01 (sampleLightColors.blue.b + hoverShift (is_dark_mode sampleLightTheme))
          a := sampleLightColors.blue.a }) :=
  (C2_hover_pressed_shift sampleLightTheme ButtonVariant.Primary sampleLightColors.blue
    (by decide) (by decide) rfl (le_refl 0) zero_le_one (le_refl 0) zero_le_one
    zero_le_one (le_refl 1)).1

/-- C4 (amended): for every container variant other than Transparent, the
light-theme background differs from the dark-theme background — for
Sheet, Group and Sidebar unconditionally and for every pair of palettes
(their backgrounds are literal mode-dependent colors in `theme.rs`), and
for Card whenever the two palettes' `card_bg` colors differ (the
concrete palettes live in the `colors` module, outside `src/`); the
Transparent variant has no background in either mode. -/
theorem C4_container_backgrounds_distinct (cl cd : ThemeColors) :
    (∀ v : ContainerVariant, v ≠ ContainerVariant.Transparent → v ≠ ContainerVariant.Card →
      (container_style ⟨false, cl⟩ v).background ≠ (container_style ⟨true, cd⟩ v).background) ∧
    (cl.card_bg ≠ cd.card_bg →
      (container_style ⟨false, cl⟩ ContainerVariant.Card).background ≠
        (container_style ⟨true, cd⟩ ContainerVariant.Card).background) ∧
    (container_style ⟨false, cl⟩ ContainerVariant.Transparent).background = none ∧
    (container_style ⟨true, cd⟩ ContainerVariant.Transparent).background = none := by
  refine ⟨fun v hvT hvC => ?_, fun hcard h => ?_, rfl, rfl⟩
  · cases v
    case Transparent => exact absurd rfl hvT
    case Card => exact absurd rfl hvC
    case Sheet =>
      intro h
      have h2 := Option.some.inj h
      injection h2 with h3
      have h4 := congrArg Color.r h3
      norm_num [Color.from_rgb, is_dark_mode] at h4
    case Group =>
      intro h
      have h2 := Option.some.inj h
      injection h2 with h3
      have h4 := congrArg Color.r h3
      norm_num [Color.from_rgb, is_dark_mode] at h4
    case Sidebar =>
      intro h
      have h2 := Option.some.inj h
      injection h2 with h3
      have h4 := congrArg Color.r h3
      norm_num [Color.from_rgb, is_dark_mode] at h4
  · have h2 : Background.color cl.card_bg = Background.color cd.card_bg := Option.some.inj h
    injection h2 with h3
    exact hcard h3

/-- Witness for C4 at concrete light/dark palettes and the Card variant. -/
theorem C4_container_backgrounds_distinct_witness :
    (container_style ⟨false, sampleLightColors⟩ ContainerVariant.Card).background ≠
      (container_style ⟨true, sampleDarkColors⟩ ContainerVariant.Card).background :=
  (C4_container_backgrounds_distinct sampleLightColors sampleDarkColors).2.1
    (by simp [sampleLightColors, sampleDarkColors, Color.WHITE, Color.BLACK])

/-- C4 counterexample: the Transparent container variant has no background
under either theme, so the light and dark backgrounds coincide there and
the claimed distinctness fails. -/
theorem C4_counterexample :
    (container_style ⟨false, sampleLightColors⟩ ContainerVariant.Transparent).background =
      (container_style ⟨true, sampleDarkColors⟩ ContainerVariant.Transparent).background := rfl

/-- C10: `Modern::selected_button_style` yields, for Active, exactly the
pressed transform (`button_pressed_style`) applied to the base function's
Active style, and for every other status exactly the base function's
result; moreover the pressed transform zeroes the shadow and
channel-shifts a color background by 0.1 toward white (dark mode) or
black (light mode), as `adjust_color_pressed` does. -/
theorem C10_selected_button_style_spec
    (f : Theme → ButtonStatus → ButtonStyle) (t : Theme) :
    Modern.selected_button_style f t ButtonStatus.Active =
      button_pressed_style (f t ButtonStatus.Active) (is_dark_mode t) ∧
    (∀ s, s ≠ ButtonStatus.Active → Modern.selected_button_style f t s = f t s) ∧
    (∀ b : ButtonStyle, (button_pressed_style b (is_dark_mode t)).shadow = Shadow.default) ∧
    (∀ (b : ButtonStyle) (c0 : Color), b.background = some (Background.color c0) →
      (button_pressed_style b (is_dark_mode t)).background =
        some (Background.color (adjust_color_pressed (is_dark_mode t) c0))) := by
  refine ⟨rfl, fun s hs => ?_, fun b => ?_, fun b c0 hb => ?_⟩
  · cases s
    case Active => exact absurd rfl hs
    all_goals rfl
  · obtain ⟨bg, tc, bd, sh, sn⟩ := b
    rcases bg with _ | bg
    · rfl
    · rcases bg with c | a2
      · rfl
      · rfl
  · obtain ⟨bg, tc, bd, sh, sn⟩ := b
    have hb2 : bg = some (Background.color c0) := hb
    subst hb2
    rfl

/-- Witness for C10: the theorem applied to a concrete base function,
theme and status. -/
theorem C10_selected_button_style_spec_witness :
    Modern.selected_button_style (fun th st => button_style th ButtonVariant.Primary st)
        sampleLightTheme ButtonStatus.Hovered =
      button_style sampleLightTheme ButtonVariant.Primary ButtonStatus.Hovered :=
  (C10_selected_button_style_spec (fun th st => button_style th ButtonVariant.Primary st)
      sampleLightTheme).2.1 ButtonStatus.Hovered (by decide)
